import Mathlib

/-
  Verification development for the CLST repository.

  The TypeScript sources are shallowly embedded over exact rationals:
  JavaScript `number` values that the programs combine by field
  arithmetic are modelled as `ℚ`; `null`/`undefined` becomes `Option`;
  array iteration becomes folds/maps over `List`.  `Array.prototype.sort`
  with the numeric comparator is a stable ascending sort and is modelled
  by `List.insertionSort`.
-/

namespace CLST

/-! ## Statistics (src/lib/statistics.ts) -/

/-- Ascending sort, the model of `[...values].sort((a, b) => a - b)`. -/
def sortQ (l : List ℚ) : List ℚ := l.insertionSort (· ≤ ·)

/-- `Statistics.median` (statistics.ts lines 17-23). -/
def median (values : List ℚ) : ℚ :=
  if values.length = 0 then 0
  else
    let sorted := sortQ values
    let n := sorted.length
    if n % 2 = 1 then sorted.getD (n / 2) 0
    else (sorted.getD (n / 2 - 1) 0 + sorted.getD (n / 2) 0) / 2

structure IqrResult where
  q1 : ℚ
  q3 : ℚ
  iqr : ℚ
  deriving Repr, DecidableEq

/-- `Statistics.iqr` (statistics.ts lines 25-34).  `slice(0, floor(n/2))`
is `take (n / 2)` and `slice(ceil(n/2))` is `drop ((n + 1) / 2)`. -/
def iqr (values : List ℚ) : IqrResult :=
  if values.length < 4 then ⟨0, 0, 0⟩
  else
    let sorted := sortQ values
    let n := sorted.length
    let lowerHalf := sorted.take (n / 2)
    let upperHalf := sorted.drop ((n + 1) / 2)
    let q1 := median lowerHalf
    let q3 := median upperHalf
    ⟨q1, q3, q3 - q1⟩

/-- `Statistics.mad` (statistics.ts lines 36-42); the scale factor
`1.4826` is the rational `14826/10000`. -/
def mad (values : List ℚ) : ℚ :=
  if values.length = 0 then 0
  else
    let med := median values
    let deviations := values.map (fun v => |v - med|)
    (14826/10000 : ℚ) * median deviations

/-- `Statistics.modifiedZScore` (statistics.ts lines 44-55); the two
optional arguments are the `median?`/`madScaled?` parameters. -/
def modifiedZScore (value : ℚ) (baseline : List ℚ)
    (medianArg : Option ℚ) (madScaledArg : Option ℚ) : ℚ :=
  if baseline.length = 0 then 0
  else
    let med := medianArg.getD (median baseline)
    let madS := madScaledArg.getD (mad baseline)
    if madS = 0 then 0 else (value - med) / madS

/-- `sorted[0]` as used by `ScoringEngine.computeStatsFromValues`. -/
def minVal (values : List ℚ) : ℚ := (sortQ values).getD 0 0

/-- `sorted[sorted.length - 1]` as used by `computeStatsFromValues`. -/
def maxVal (values : List ℚ) : ℚ := (sortQ values).getD (values.length - 1) 0

/-- Arithmetic mean as computed by `shapeStatistics`
(`values.reduce((a,b) => a+b, 0) / n`). -/
def listMean (values : List ℚ) : ℚ := values.sum / values.length

/-- The `(n-1)`-divided variance computed by `Statistics.shapeStatistics`
(statistics.ts line 265). -/
def sampleVariance (values : List ℚ) : ℚ :=
  (values.map (fun v => (v - listMean values) ^ 2)).sum / ((values.length : ℚ) - 1)

structure ShapeResult where
  skewness : ℝ
  kurtosis : ℝ

/-- `Statistics.shapeStatistics` (statistics.ts lines 261-274).  The
standard deviation is a real square root, so the non-degenerate branch
lives in `ℝ`. -/
noncomputable def shapeStatistics (values : List ℚ) : ShapeResult :=
  if values.length < 4 then ⟨0, 0⟩
  else
    let n : ℚ := values.length
    let mean := listMean values
    let variance := sampleVariance values
    let std : ℝ := Real.sqrt (variance : ℝ)
    if std = 0 then ⟨0, 0⟩
    else
      let m3 : ℝ := (values.map (fun v => (((v : ℝ) - (mean : ℝ)) / std) ^ 3)).sum
      let skewness := ((n : ℝ) / (((n : ℝ) - 1) * ((n : ℝ) - 2))) * m3
      let m4 : ℝ := (values.map (fun v => (((v : ℝ) - (mean : ℝ)) / std) ^ 4)).sum
      let kurtosis :=
        (((n : ℝ) * ((n : ℝ) + 1)) / (((n : ℝ) - 1) * ((n : ℝ) - 2) * ((n : ℝ) - 3))) * m4 -
          (3 * ((n : ℝ) - 1) ^ 2) / (((n : ℝ) - 2) * ((n : ℝ) - 3))
      ⟨skewness, kurtosis⟩

/-- `Statistics.normalCDF` (statistics.ts lines 80-91) for `z ≥ 0`. -/
noncomputable def normalCDFpos (z : ℝ) : ℝ :=
  let t : ℝ := 1 / (1 + 0.2316419 * z)
  let phi : ℝ := (1 / Real.sqrt (2 * Real.pi)) * Real.exp (-z * z / 2)
  1 - phi * (0.319381530 * t - 0.356563782 * t * t + 1.781477937 * t * t * t -
    1.821255978 * t * t * t * t + 1.330274429 * t * t * t * t * t)

/-- `Statistics.normalCDF`; the self-call for `z < 0` always has a
nonnegative argument, so the recursion is unrolled once. -/
noncomputable def normalCDF (z : ℝ) : ℝ :=
  if z < 0 then 1 - normalCDFpos (-z) else normalCDFpos z

/-- Tie-averaged rank assignment: the `while` loop shared by
`mannWhitneyU` and `rankWithTies` (statistics.ts lines 216-224), walking
runs of equal values in a sorted list; `i` is the absolute position of
the head of `l` in the enclosing sorted array. -/
def ranksAux (l : List ℚ) (i : ℕ) : List ℚ :=
  match l with
  | [] => []
  | x :: xs =>
    let run := 1 + (xs.takeWhile (fun y => y == x)).length
    let avgRank : ℚ := ((i : ℚ) + ((i + run : ℕ) : ℚ) + 1) / 2
    List.replicate run avgRank ++ ranksAux (xs.dropWhile (fun y => y == x)) (i + run)
termination_by l.length
decreasing_by
  simp only [List.length_cons]
  have := (List.dropWhile_sublist (l := xs) (p := fun y => y == x)).length_le
  omega

structure MWResult where
  u : ℚ
  pValue : Option ℝ

/-- `Statistics.mannWhitneyU` (statistics.ts lines 204-238).  The JS
`NaN` p-value returned for small samples is modelled as `none`; the
combined array tags entries with their group (1 or 2). -/
noncomputable def mannWhitneyU (group1 group2 : List ℚ) : MWResult :=
  if group1.length = 0 ∨ group2.length = 0 then ⟨0, some 1⟩
  else
    let n1 : ℚ := group1.length
    let n2 : ℚ := group2.length
    let combined :=
      ((group1.map (fun v => (v, (1 : ℕ)))) ++ (group2.map (fun v => (v, (2 : ℕ))))).insertionSort
        (fun a b => a.1 ≤ b.1)
    let ranks := ranksAux (combined.map (·.1)) 0
    let r1 := ((combined.zip ranks).filter (fun p => p.1.2 == 1)).foldl (fun s p => s + p.2) 0
    let u1 := r1 - n1 * (n1 + 1) / 2
    let u2 := n1 * n2 - u1
    let u := min u1 u2
    if 20 < group1.length ∧ 20 < group2.length then
      let meanU := n1 * n2 / 2
      let stdU : ℝ := Real.sqrt (((n1 * n2 * (n1 + n2 + 1) / 12 : ℚ) : ℝ))
      let z : ℝ := ((u : ℝ) - (meanU : ℝ)) / stdU
      ⟨u, some (2 * (1 - normalCDF |z|))⟩
    else ⟨u, none⟩

/-! ## Scoring engine (unnamed/part_004, `ScoringEngine`) -/

def DEFAULT_WINDOW_SIZE : ℕ := 20
def CALIBRATION_SESSIONS : ℕ := 5
def MIN_BASELINE_SESSIONS : ℕ := 10
def DEFAULT_ALPHA : ℚ := 35 / 100
def DC_VALIDITY_THRESHOLD : ℚ := 15

structure BaselineStats where
  median : ℚ
  madScaled : ℚ
  q1 : ℚ
  q3 : ℚ
  iqr : ℚ
  minVal : ℚ
  maxVal : ℚ
  windowSize : ℕ
  deriving Repr, DecidableEq

/-- The per-layer weight maps of a `WeightProfile` (types/index.ts). -/
structure L0Weights where
  rt : ℚ
  rt_variance : ℚ
  deriving Repr, DecidableEq

structure L1Weights where
  track_error : ℚ
  track_variance : ℚ
  jerk : ℚ
  overshoot : ℚ
  deriving Repr, DecidableEq

structure L2Weights where
  track_error : ℚ
  audio_rt : ℚ
  audio_accuracy : ℚ
  prp : ℚ
  deriving Repr, DecidableEq

structure L3Weights where
  track_error : ℚ
  audio_rt : ℚ
  prp : ℚ
  cooldown : ℚ
  periph_rt : ℚ
  periph_miss : ℚ
  deriving Repr, DecidableEq

structure Weights where
  alpha : ℚ
  L0 : L0Weights
  L1 : L1Weights
  L2 : L2Weights
  L3 : L3Weights
  deriving Repr, DecidableEq

structure WeightProfile where
  id : String
  name : String
  isCustom : Bool
  weights : Weights
  deriving Repr, DecidableEq

/-- `LayerMetrics` (types/index.ts): all metric fields are optional and
populate only for applicable layers. -/
structure LayerMetrics where
  sessionId : String
  layer : ℕ
  meanRT : Option ℚ := none
  rtVariance : Option ℚ := none
  rtStd : Option ℚ := none
  anticipationCount : Option ℕ := none
  lapseCount : Option ℕ := none
  meanTrackingError : Option ℚ := none
  trackingErrorVariance : Option ℚ := none
  meanJerk : Option ℚ := none
  overshootRate : Option ℚ := none
  meanAudioRT : Option ℚ := none
  audioAccuracy : Option ℚ := none
  audioFalsePositives : Option ℕ := none
  meanPRPDuration : Option ℚ := none
  meanCooldownDelay : Option ℚ := none
  cooldownMissCount : Option ℕ := none
  meanPeripheralRT : Option ℚ := none
  peripheralMissRate : Option ℚ := none
  deriving Repr, DecidableEq

structure MetricValue where
  name : String
  value : ℚ
  weight : ℚ
  higherIsBetter : Bool
  deriving Repr, DecidableEq

/-- The baselines `Map<string, BaselineStats>`: lookup by string key. -/
abbrev Baselines := String → Option BaselineStats

/-- `layerWeights[def.name] ?? 0` — field lookup in the active layer's
weight map, defaulting to 0. -/
def layerWeight (w : Weights) (layer : ℕ) (name : String) : ℚ :=
  match layer with
  | 0 =>
    if name = "rt" then w.L0.rt
    else if name = "rt_variance" then w.L0.rt_variance
    else 0
  | 1 =>
    if name = "track_error" then w.L1.track_error
    else if name = "track_variance" then w.L1.track_variance
    else if name = "jerk" then w.L1.jerk
    else if name = "overshoot" then w.L1.overshoot
    else 0
  | 2 =>
    if name = "track_error" then w.L2.track_error
    else if name = "audio_rt" then w.L2.audio_rt
    else if name = "audio_accuracy" then w.L2.audio_accuracy
    else if name = "prp" then w.L2.prp
    else 0
  | 3 =>
    if name = "track_error" then w.L3.track_error
    else if name = "audio_rt" then w.L3.audio_rt
    else if name = "prp" then w.L3.prp
    else if name = "cooldown" then w.L3.cooldown
    else if name = "periph_rt" then w.L3.periph_rt
    else if name = "periph_miss" then w.L3.periph_miss
    else 0
  | _ => 0

/-- `ScoringEngine.extractMetricsForLayer` (part_004 lines 110-169):
`layerMetricDefs` per layer, keeping only fields that are present. -/
def extractMetricsForLayer (layer : ℕ) (m : LayerMetrics) (p : WeightProfile) :
    List MetricValue :=
  let defs : List (String × Option ℚ × Bool) :=
    match layer with
    | 0 => [("rt", m.meanRT, false), ("rt_variance", m.rtVariance, false)]
    | 1 => [("track_error", m.meanTrackingError, false),
            ("track_variance", m.trackingErrorVariance, false),
            ("jerk", m.meanJerk, false),
            ("overshoot", m.overshootRate, false)]
    | 2 => [("track_error", m.meanTrackingError, false),
            ("audio_rt", m.meanAudioRT, false),
            ("audio_accuracy", m.audioAccuracy, true),
            ("prp", m.meanPRPDuration, false)]
    | 3 => [("track_error", m.meanTrackingError, false),
            ("audio_rt", m.meanAudioRT, false),
            ("prp", m.meanPRPDuration, false),
            ("cooldown", m.meanCooldownDelay, false),
            ("periph_rt", m.meanPeripheralRT, false),
            ("periph_miss", m.peripheralMissRate, false)]
    | _ => []
  defs.filterMap (fun d =>
    d.2.1.map (fun v => ⟨d.1, v, layerWeight p.weights layer d.1, d.2.2⟩))

/-- `ScoringEngine.linearNormalization` (part_004 lines 97-104). -/
def linearNormalization (value minV maxV : ℚ) (higherIsBetter : Bool) : ℚ :=
  if maxV = minV then 1 / 2
  else
    let normalized := (value - minV) / (maxV - minV)
    let score := if higherIsBetter then normalized else 1 - normalized
    max 0 (min 1 score)

/-- `ScoringEngine.estimatePercentileFromStats` (part_004 lines 73-95). -/
def estimatePercentileFromStats (value : ℚ) (b : BaselineStats) (higherIsBetter : Bool) : ℚ :=
  if value ≤ b.minVal then (if higherIsBetter then 0 else 1)
  else if b.maxVal ≤ value then (if higherIsBetter then 1 else 0)
  else
    let percentile : ℚ :=
      if value ≤ b.q1 then
        (if b.q1 = b.minVal then 1 / 8
         else (1 / 4) * (value - b.minVal) / (b.q1 - b.minVal))
      else if value ≤ b.median then
        (if b.median = b.q1 then 3 / 8
         else 1 / 4 + (1 / 4) * (value - b.q1) / (b.median - b.q1))
      else if value ≤ b.q3 then
        (if b.q3 = b.median then 5 / 8
         else 1 / 2 + (1 / 4) * (value - b.median) / (b.q3 - b.median))
      else
        (if b.maxVal = b.q3 then 7 / 8
         else 3 / 4 + (1 / 4) * (value - b.q3) / (b.maxVal - b.q3))
    if higherIsBetter then percentile else 1 - percentile

/-- `ScoringEngine.computeLPI` (part_004 lines 31-71). -/
def computeLPI (layer : ℕ) (metrics : LayerMetrics) (baselines : Baselines)
    (wp : WeightProfile) : Option ℚ :=
  let metricValues := extractMetricsForLayer layer metrics wp
  if metricValues.length = 0 then none
  else
    let scores := metricValues.map (fun metric =>
      match baselines (metric.name ++ "_L" ++ toString layer) with
      | none => linearNormalization metric.value metric.value metric.value metric.higherIsBetter
      | some baseline =>
        if baseline.windowSize < MIN_BASELINE_SESSIONS then
          linearNormalization metric.value baseline.minVal baseline.maxVal metric.higherIsBetter
        else
          estimatePercentileFromStats metric.value baseline metric.higherIsBetter)
    let appliedWeights := metricValues.map (·.weight)
    let weightSum := appliedWeights.sum
    if weightSum = 0 then none
    else
      let lpi := ((scores.zip appliedWeights).map (fun sw => sw.1 * (sw.2 / weightSum))).sum * 100
      some (max 0 (min 100 lpi))

/-- `ScoringEngine.computeDC` (part_004 lines 175-179). -/
def computeDC (lpi0 lpi3 : Option ℚ) : Option ℚ :=
  match lpi0, lpi3 with
  | some a, some b =>
    if a < DC_VALIDITY_THRESHOLD then none else some (max 0 (min 1 (b / a)))
  | _, _ => none

/-- `ScoringEngine.computeCRS` (part_004 lines 181-195). -/
def computeCRS (lpis : List (Option ℚ)) (dc : Option ℚ) (alpha : ℚ) : Option ℚ :=
  let validLPIs := lpis.filterMap id
  if validLPIs.length = 0 then none
  else
    let meanLPI := validLPIs.sum / validLPIs.length
    let normLPI := meanLPI / 100
    match dc with
    | none => some meanLPI
    | some d => some (max 0 (min 100 (100 * (alpha * normLPI + (1 - alpha) * d))))

inductive Alert
  | critical
  | warning
  deriving Repr, DecidableEq

/-- `ScoringEngine.computeModifiedZScore` (part_004 lines 267-270). -/
def computeModifiedZScoreB (value : ℚ) (b : BaselineStats) : ℚ :=
  if b.madScaled = 0 then 0 else (value - b.median) / b.madScaled

/-- `ScoringEngine.checkAlertThreshold` (part_004 lines 272-276). -/
def checkAlertThreshold (z : ℚ) : Option Alert :=
  if z < -2 then some .critical else if z < -(3 / 2) then some .warning else none

structure SessionScores where
  lpi0 : Option ℚ
  lpi1 : Option ℚ
  lpi2 : Option ℚ
  lpi3 : Option ℚ
  dc : Option ℚ
  crs : Option ℚ
  alert : Option Alert
  deriving Repr, DecidableEq

/-- `ScoringEngine.computeSessionScores` (part_004 lines 201-230). -/
def computeSessionScores (layerMetrics : List LayerMetrics) (baselines : Baselines)
    (wp : WeightProfile) : SessionScores :=
  let lpi0 := (layerMetrics[0]?).bind (fun m => computeLPI 0 m baselines wp)
  let lpi1 := (layerMetrics[1]?).bind (fun m => computeLPI 1 m baselines wp)
  let lpi2 := (layerMetrics[2]?).bind (fun m => computeLPI 2 m baselines wp)
  let lpi3 := (layerMetrics[3]?).bind (fun m => computeLPI 3 m baselines wp)
  let dc := computeDC lpi0 lpi3
  let crs := computeCRS [lpi0, lpi1, lpi2, lpi3] dc wp.weights.alpha
  let alert :=
    match crs, baselines "crs" with
    | some c, some cb =>
      if MIN_BASELINE_SESSIONS ≤ cb.windowSize then
        checkAlertThreshold (computeModifiedZScoreB c cb)
      else none
    | _, _ => none
  ⟨lpi0, lpi1, lpi2, lpi3, dc, crs, alert⟩

/-! ## Raw events (types/index.ts) and metrics calculator (unnamed/part_005) -/

inductive EventType
  | stimulus_onset
  | click
  | keypress
  | cursor_pos
  | audio_cue
  | cooldown_ready
  | peripheral_flash
  deriving Repr, DecidableEq

inductive Tone
  | high
  | low
  | distractor
  deriving Repr, DecidableEq

inductive Dir
  | up
  | down
  | left
  | right
  deriving Repr, DecidableEq

/-- Variant-specific payload of a `RawEvent`; absent fields are `none`. -/
structure EventData where
  x : Option ℚ := none
  y : Option ℚ := none
  key : Option String := none
  tone : Option Tone := none
  cursorX : Option ℚ := none
  cursorY : Option ℚ := none
  targetX : Option ℚ := none
  targetY : Option ℚ := none
  targetRadius : Option ℚ := none
  direction : Option Dir := none
  digit : Option ℕ := none
  deriving Repr, DecidableEq

structure RawEvent where
  sessionId : String
  layer : ℤ
  eventType : EventType
  timestampUs : ℚ
  data : EventData
  deriving Repr, DecidableEq

/-- `.sort((a, b) => a.timestampUs - b.timestampUs)`: stable ascending
sort on timestamps. -/
def sortByTime (events : List RawEvent) : List RawEvent :=
  events.insertionSort (fun a b => a.timestampUs ≤ b.timestampUs)

def RT_MIN_MS : ℚ := 100
def RT_MAX_MS : ℚ := 1500
def PERIPHERAL_TIMEOUT_MS : ℚ := 2000

structure RTResult where
  meanRT : ℚ
  rtVariance : ℚ
  anticipationCount : ℕ
  lapseCount : ℕ
  deriving Repr, DecidableEq

/-- The backward scan of `MetricsCalculator.reactionTime` (part_005
lines 48-54): walk the sorted stimulus array from its end and return the
first entry with timestamp strictly before `t`. -/
def findPrecedingStimulus (stimuli : List RawEvent) (t : ℚ) : Option RawEvent :=
  stimuli.reverse.find? (fun s => decide (s.timestampUs < t))

/-- `MetricsCalculator.reactionTime` (part_005 lines 28-75).  The
returned `rtStd` of the source is `√rtVariance` and carries no
information beyond `rtVariance`, so it is not a field here. -/
def reactionTime (events : List RawEvent) : RTResult :=
  let stimuli := sortByTime (events.filter (fun e => e.eventType == EventType.stimulus_onset))
  let responses := sortByTime (events.filter (fun e => e.eventType == EventType.click))
  let step := fun (acc : List ℚ × ℕ × ℕ) (response : RawEvent) =>
    match findPrecedingStimulus stimuli response.timestampUs with
    | none => acc
    | some s =>
      let rtMs := (response.timestampUs - s.timestampUs) / 1000
      if rtMs < RT_MIN_MS then (acc.1, acc.2.1 + 1, acc.2.2)
      else if RT_MAX_MS < rtMs then (acc.1, acc.2.1, acc.2.2 + 1)
      else (acc.1 ++ [rtMs], acc.2.1, acc.2.2)
  let res := responses.foldl step ([], 0, 0)
  let validRTs := res.1
  if validRTs.length = 0 then ⟨0, 0, res.2.1, res.2.2⟩
  else
    let meanRT := validRTs.sum / (validRTs.length : ℚ)
    let variance := (validRTs.map (fun rt => (rt - meanRT) ^ 2)).sum / (validRTs.length : ℚ)
    ⟨meanRT, variance, res.2.1, res.2.2⟩

structure AudioResult where
  meanAudioRT : ℚ
  audioAccuracy : ℚ
  audioFalsePositives : ℕ
  deriving Repr, DecidableEq

/-- The response-window test of `audioMetrics` (part_005 lines 241-244):
strictly after the cue and strictly inside `RT_MAX_MS` milliseconds. -/
def inResponseWindow (cue r : RawEvent) : Bool :=
  decide (cue.timestampUs < r.timestampUs) &&
    decide (r.timestampUs < cue.timestampUs + RT_MAX_MS * 1000)

/-- The loop body of `audioMetrics` for one signal cue (part_005 lines
240-252): take the first SPACE response inside the window; its reaction
time is kept only when it is at or above the anticipation floor. -/
def audioMatchRT (spaceResponses : List RawEvent) (cue : RawEvent) : Option ℚ :=
  match spaceResponses.find? (inResponseWindow cue) with
  | some r =>
    let rt := (r.timestampUs - cue.timestampUs) / 1000
    if RT_MIN_MS ≤ rt then some rt else none
  | none => none

/-- The sorted non-distractor audio cues of `audioMetrics`
(part_005 lines 225-227). -/
def signalCuesOf (events : List RawEvent) : List RawEvent :=
  sortByTime (events.filter (fun e =>
    e.eventType == EventType.audio_cue && e.data.tone != some Tone.distractor))

/-- The sorted distractor cues (part_005 lines 229-231). -/
def distractorCuesOf (events : List RawEvent) : List RawEvent :=
  sortByTime (events.filter (fun e =>
    e.eventType == EventType.audio_cue && e.data.tone == some Tone.distractor))

/-- The sorted SPACE key-presses (part_005 lines 233-235). -/
def spaceResponsesOf (events : List RawEvent) : List RawEvent :=
  sortByTime (events.filter (fun e =>
    e.eventType == EventType.keypress && e.data.key == some " "))

/-- `MetricsCalculator.audioMetrics` (part_005 lines 220-272). -/
def audioMetrics (events : List RawEvent) : AudioResult :=
  let signalCues := signalCuesOf events
  let distractorCues := distractorCuesOf events
  let spaceResponses := spaceResponsesOf events
  let audioRTs := signalCues.filterMap (audioMatchRT spaceResponses)
  let hits := audioRTs.length
  let falsePositives := distractorCues.countP (fun d =>
    (spaceResponses.find? (inResponseWindow d)).isSome)
  let totalSignals := signalCues.length
  ⟨if audioRTs.length = 0 then 0 else audioRTs.sum / (audioRTs.length : ℚ),
   if totalSignals = 0 then 0 else (hits : ℚ) / (totalSignals : ℚ),
   falsePositives⟩

/-- Modelled from the spec: "match each non-distractor cue to the next
qualifying key-response inside a response window (rejecting responses
faster than the anticipation floor)" — here a response *qualifies* only
if it is inside the window AND not faster than the floor, so a too-fast
response is skipped and a later in-window response can still match. -/
def isQualifyingResponse (cue r : RawEvent) : Bool :=
  inResponseWindow cue r &&
    decide (RT_MIN_MS ≤ (r.timestampUs - cue.timestampUs) / 1000)

/-- Modelled from the spec: accuracy = cues matched to their next
qualifying response, divided by total signal cues. -/
def specAudioAccuracy (events : List RawEvent) : ℚ :=
  let signalCues := signalCuesOf events
  let spaceResponses := spaceResponsesOf events
  let matched := signalCues.countP (fun cue =>
    (spaceResponses.find? (isQualifyingResponse cue)).isSome)
  if signalCues.length = 0 then 0 else (matched : ℚ) / (signalCues.length : ℚ)

/-- The per-cue match of the code, as a predicate: the first in-window
SPACE response exists and is not faster than the anticipation floor. -/
def codeMatched (spaceResponses : List RawEvent) (cue : RawEvent) : Bool :=
  match spaceResponses.find? (inResponseWindow cue) with
  | some r => decide (RT_MIN_MS ≤ (r.timestampUs - cue.timestampUs) / 1000)
  | none => false

/-! ## Test engine (unnamed/part_003, `TestEngine`) -/

inductive Phase
  | idle
  | countdown
  | running
  | interLayer
  | complete
  deriving Repr, DecidableEq

structure SimpleStimulus where
  visible : Bool
  x : ℚ
  y : ℚ
  onsetTime : ℚ
  deriving Repr, DecidableEq

structure AudioCueState where
  tone : Tone
  onsetTime : ℚ
  deriving Repr, DecidableEq

structure PeripheralFlashState where
  direction : Dir
  digit : ℕ
  onsetTime : ℚ
  deriving Repr, DecidableEq

structure TargetState where
  x : ℚ
  y : ℚ
  vx : ℚ
  vy : ℚ
  radius : ℚ
  deriving Repr, DecidableEq

structure StimulusState where
  simpleStimulus : Option SimpleStimulus
  target : Option TargetState
  lastAudioCue : Option AudioCueState
  cooldownProgress : ℚ
  cooldownReady : Bool
  cooldownReadyTime : Option ℚ
  peripheralFlash : Option PeripheralFlashState
  deriving Repr, DecidableEq

structure Resolution where
  width : ℚ
  height : ℚ
  deriving Repr, DecidableEq

structure DifficultyParams where
  targetSpeed : ℚ
  audioIntervalMin : ℚ
  audioIntervalMax : ℚ
  peripheralDuration : ℚ
  cooldownInterval : ℚ
  deriving Repr, DecidableEq

structure SessionConfig where
  monitorResolution : Resolution
  monitorRefreshRate : ℚ
  deriving Repr, DecidableEq

/-- The mutable fields of `TestEngine` that the embedded operations
read or write. -/
structure EngineState where
  config : SessionConfig
  difficulty : DifficultyParams
  sessionId : String
  currentLayer : ℤ
  layerStartTime : ℚ
  testStartTime : ℚ
  isRunning : Bool
  isPaused : Bool
  phase : Phase
  stimulusState : StimulusState
  events : List RawEvent
  eventIndex : ℕ
  lastFrameTime : ℚ
  lastAudioCueTime : ℚ
  lastPeripheralTime : ℚ
  lastCooldownReadyTime : ℚ
  nextSimpleStimulusTime : ℚ
  nextAudioCueTime : ℚ
  nextPeripheralTime : ℚ
  systemStallCount : ℕ
  targetPosition : ℚ × ℚ
  targetVelocity : ℚ × ℚ
  targetRadius : ℚ
  targetSpeed : ℚ
  currentAngle : ℚ
  goalAngle : ℚ
  isSteeringToGoal : Bool
  cooldownInterval : ℚ
  cooldownStartTime : ℚ
  deriving Repr, DecidableEq

def MAX_EVENTS : ℕ := 50000
def MIN_AUDIO_INTERVAL : ℚ := 1500
def TARGET_TURN_RATE : ℚ := 3

/-- `TestEngine.recordEvent` (part_003 lines 764-778): write into the
pre-allocated buffer at the cursor, or reject when full.  The returned
flag is true exactly when the capacity-exceeded warning was emitted. -/
def recordEvent (st : EngineState) (e : RawEvent) : EngineState × Bool :=
  if MAX_EVENTS ≤ st.eventIndex then (st, true)
  else
    ({st with
        events := st.events.set st.eventIndex {e with sessionId := st.sessionId}
        eventIndex := st.eventIndex + 1},
     false)

/-- `TestEngine.getEvents` (part_003 lines 298-300): the ordered view of
the buffer up to the write cursor. -/
def getEvents (st : EngineState) : List RawEvent := st.events.take st.eventIndex

/-- `TestEngine.randomInterval` (part_003 lines 792-794); `r` is the
`Math.random()` draw in `[0, 1)`. -/
def randomInterval (lo hi r : ℚ) : ℚ := lo + r * (hi - lo)

/-- The random draws and transcendental values consumed when a layer
starts: `rStimulus`/`rAudio`/`rPeripheral` are `Math.random()` draws for
the three `randomInterval` call sites, `angle` stands for the drawn
initial heading `Math.random() * 2π`, and `cosA`/`sinA` are the cosine
and sine oracles (the engine combines their outputs only by field
arithmetic, so they enter the rational embedding as functions). -/
structure ResetOracle where
  rStimulus : ℚ
  rAudio : ℚ
  rPeripheral : ℚ
  angle : ℚ
  cosA : ℚ → ℚ
  sinA : ℚ → ℚ

/-- `TestEngine.initializeTarget` (part_003 lines 390-402). -/
def initializeTarget (o : ResetOracle) (st : EngineState) : EngineState :=
  let centerX := st.config.monitorResolution.width / 2
  let centerY := st.config.monitorResolution.height / 2
  {st with
    targetPosition := (centerX, centerY)
    currentAngle := o.angle
    goalAngle := o.angle
    isSteeringToGoal := false
    targetVelocity := (o.cosA o.angle * st.targetSpeed, o.sinA o.angle * st.targetSpeed)}

/-- `TestEngine.resetLayerState` (part_003 lines 338-388). -/
def resetLayerState (layer : ℤ) (o : ResetOracle) (st0 : EngineState) : EngineState :=
  let st1 :=
    if layer = 0 then
      {st0 with nextSimpleStimulusTime := st0.layerStartTime + randomInterval 800 2000 o.rStimulus}
    else st0
  let st2 :=
    if 1 ≤ layer then
      let stA := if layer = 1 then initializeTarget o st1 else st1
      {stA with targetSpeed := stA.difficulty.targetSpeed}
    else st1
  let st3 :=
    if 2 ≤ layer then
      {st2 with
        lastAudioCueTime := st2.layerStartTime
        nextAudioCueTime := st2.layerStartTime +
          randomInterval (max st2.difficulty.audioIntervalMin MIN_AUDIO_INTERVAL)
            st2.difficulty.audioIntervalMax o.rAudio}
    else st2
  let st4 :=
    if layer = 3 then
      {st3 with
        cooldownStartTime := st3.layerStartTime
        cooldownInterval := st3.difficulty.cooldownInterval
        lastPeripheralTime := st3.layerStartTime
        lastCooldownReadyTime := st3.layerStartTime
        nextPeripheralTime := st3.layerStartTime + randomInterval 3000 6000 o.rPeripheral}
    else st3
  {st4 with
    stimulusState :=
      { simpleStimulus := none
        target :=
          if 1 ≤ layer then
            some ⟨st4.targetPosition.1, st4.targetPosition.2, st4.targetVelocity.1,
              st4.targetVelocity.2, st4.targetRadius⟩
          else none
        lastAudioCue := none
        cooldownProgress := 0
        cooldownReady := false
        cooldownReadyTime := none
        peripheralFlash := none }}

/-- `TestEngine.startLayer` (part_003 lines 325-336).  The second
component lists the assignments made to `this.phase` during the call,
in program order. -/
def startLayer (layer : ℤ) (now : ℚ) (o : ResetOracle) (st : EngineState) :
    EngineState × List Phase :=
  let st1 := {st with
    currentLayer := layer
    layerStartTime := now
    lastFrameTime := now
    phase := Phase.running}
  (resetLayerState layer o st1, [Phase.running])

/-- `TestEngine.start` (part_003 lines 183-190); `now` is
`performance.now()`.  The second component lists the assignments made to
`this.phase` during the call, in program order. -/
def start (now : ℚ) (o : ResetOracle) (st : EngineState) : EngineState × List Phase :=
  if st.isRunning then (st, [])
  else
    startLayer 0 now o
      {st with isRunning := true, testStartTime := now, eventIndex := 0, systemStallCount := 0}

/-- `Math.sign`. -/
def signQ (x : ℚ) : ℚ := if x < 0 then -1 else if 0 < x then 1 else 0

/-- The nondeterministic/transcendental inputs of one
`updateTargetPosition` tick: `normAngle` is the `normalizeAngle`
π-wrapping, `cosA`/`sinA`/`atan2` the trigonometric oracles,
`steerTrigger` the outcome of `Math.random() < 1 - (1-rate)^Δt`, and
`newGoal` the freshly drawn goal heading `Math.random() * 2π`. -/
structure KinOracle where
  normAngle : ℚ → ℚ
  cosA : ℚ → ℚ
  sinA : ℚ → ℚ
  atan2 : ℚ → ℚ → ℚ
  steerTrigger : Bool
  newGoal : ℚ

/-- Smooth-steering block of `updateTargetPosition` (part_003 lines
537-555): turn the heading toward the goal (snapping inside the
tolerance) and recompute the velocity from the heading. -/
def steerStage (o : KinOracle) (dt : ℚ) (st : EngineState) : EngineState :=
  if st.isSteeringToGoal then
    let angleDiff := o.normAngle (st.goalAngle - st.currentAngle)
    let maxTurn := TARGET_TURN_RATE * dt
    let stA :=
      if |angleDiff| ≤ maxTurn then
        {st with currentAngle := st.goalAngle, isSteeringToGoal := false}
      else
        {st with currentAngle := o.normAngle (st.currentAngle + signQ angleDiff * maxTurn)}
    {stA with
      targetVelocity := (o.cosA stA.currentAngle * stA.targetSpeed,
        o.sinA stA.currentAngle * stA.targetSpeed)}
  else st

/-- Position integration of `updateTargetPosition` (lines 557-559). -/
def moveStage (dt : ℚ) (st : EngineState) : EngineState :=
  {st with
    targetPosition := (st.targetPosition.1 + st.targetVelocity.1 * dt,
      st.targetPosition.2 + st.targetVelocity.2 * dt)}

/-- Horizontal bounce of `updateTargetPosition` (lines 565-570):
reflect vx, resynchronize the heading, cancel steering, clamp x. -/
def bounceXStage (o : KinOracle) (st : EngineState) : EngineState :=
  let width := st.config.monitorResolution.width
  let margin := st.targetRadius
  if st.targetPosition.1 ≤ margin ∨ width - margin ≤ st.targetPosition.1 then
    let vx := -st.targetVelocity.1
    {st with
      targetVelocity := (vx, st.targetVelocity.2)
      currentAngle := o.atan2 st.targetVelocity.2 vx
      isSteeringToGoal := false
      targetPosition := (max margin (min (width - margin) st.targetPosition.1),
        st.targetPosition.2)}
  else st

/-- Vertical bounce of `updateTargetPosition` (lines 571-576). -/
def bounceYStage (o : KinOracle) (st : EngineState) : EngineState :=
  let height := st.config.monitorResolution.height
  let margin := st.targetRadius
  if st.targetPosition.2 ≤ margin ∨ height - margin ≤ st.targetPosition.2 then
    let vy := -st.targetVelocity.2
    {st with
      targetVelocity := (st.targetVelocity.1, vy)
      currentAngle := o.atan2 vy st.targetVelocity.1
      isSteeringToGoal := false
      targetPosition := (st.targetPosition.1,
        max margin (min (height - margin) st.targetPosition.2))}
  else st

/-- Direction-change trigger of `updateTargetPosition` (lines 578-586);
the probability comparison outcome is the oracle's `steerTrigger`. -/
def steerTriggerStage (o : KinOracle) (st : EngineState) : EngineState :=
  if o.steerTrigger && !st.isSteeringToGoal then
    {st with goalAngle := o.newGoal, isSteeringToGoal := true}
  else st

/-- Stimulus-state synchronization of `updateTargetPosition`
(lines 588-595). -/
def syncTargetStage (st : EngineState) : EngineState :=
  match st.stimulusState.target with
  | some t =>
    {st with
      stimulusState := {st.stimulusState with
        target := some {t with
          x := st.targetPosition.1
          y := st.targetPosition.2
          vx := st.targetVelocity.1
          vy := st.targetVelocity.2}}}
  | none => st

/-- `TestEngine.updateTargetPosition` (part_003 lines 536-596), as the
composition of its source blocks in program order. -/
def updateTargetPosition (o : KinOracle) (dt : ℚ) (st : EngineState) : EngineState :=
  syncTargetStage (steerTriggerStage o
    (bounceYStage o (bounceXStage o (moveStage dt (steerStage o dt st)))))

/-- A sequence of `updateTargetPosition` ticks. -/
def runUpdates (steps : List (KinOracle × ℚ)) (st : EngineState) : EngineState :=
  steps.foldl (fun s p => updateTargetPosition p.1 p.2 s) st

instance : IsTotal RawEvent (fun a b => a.timestampUs ≤ b.timestampUs) :=
  ⟨fun a b => le_total a.timestampUs b.timestampUs⟩

instance : IsTrans RawEvent (fun a b => a.timestampUs ≤ b.timestampUs) :=
  ⟨fun _ _ _ h1 h2 => le_trans h1 h2⟩

/-- A signal cue with a too-fast SPACE press at +50 ms followed by a
SPACE press at +200 ms. -/
def exC3 : List RawEvent :=
  [⟨"s", 2, EventType.audio_cue, 1000000, { tone := some Tone.high }⟩,
   ⟨"s", 2, EventType.keypress, 1050000, { key := some " " }⟩,
   ⟨"s", 2, EventType.keypress, 1200000, { key := some " " }⟩]

/-- Scenario A event log: stimulus at 1,000,000 µs, click at
1,250,000 µs. -/
def exC7A : List RawEvent :=
  [⟨"s", 0, EventType.stimulus_onset, 1000000, {}⟩,
   ⟨"s", 0, EventType.click, 1250000, {}⟩]

/-- Scenario B event log: stimulus at 1,000,000 µs, click at
1,000,050 µs. -/
def exC7B : List RawEvent :=
  [⟨"s", 0, EventType.stimulus_onset, 1000000, {}⟩,
   ⟨"s", 0, EventType.click, 1000050, {}⟩]

/-- An empty per-layer stimulus snapshot (the reset value). -/
def blankStimulusState : StimulusState :=
  { simpleStimulus := none, target := none, lastAudioCue := none, cooldownProgress := 0,
    cooldownReady := false, cooldownReadyTime := none, peripheralFlash := none }

/-- The placeholder the constructor pre-fills the event buffer with
(part_003 lines 122-133). -/
def placeholderEvent : RawEvent := ⟨"s", 0, EventType.cursor_pos, 0, {}⟩

/-- A freshly constructed engine: the constructor defaults of part_003
(lines 52-104) with the `standard` difficulty and a 1920×1080 monitor. -/
def sampleEngineState : EngineState :=
  { config := { monitorResolution := { width := 1920, height := 1080 }, monitorRefreshRate := 60 }
    difficulty := { targetSpeed := 200, audioIntervalMin := 1500, audioIntervalMax := 3500,
                    peripheralDuration := 1800, cooldownInterval := 8000 }
    sessionId := "s"
    currentLayer := -1
    layerStartTime := 0
    testStartTime := 0
    isRunning := false
    isPaused := false
    phase := Phase.idle
    stimulusState := blankStimulusState
    events := List.replicate MAX_EVENTS placeholderEvent
    eventIndex := 0
    lastFrameTime := 0
    lastAudioCueTime := 0
    lastPeripheralTime := 0
    lastCooldownReadyTime := 0
    nextSimpleStimulusTime := 0
    nextAudioCueTime := 0
    nextPeripheralTime := 0
    systemStallCount := 0
    targetPosition := (0, 0)
    targetVelocity := (0, 0)
    targetRadius := 30
    targetSpeed := 200
    currentAngle := 0
    goalAngle := 0
    isSteeringToGoal := false
    cooldownInterval := 8000
    cooldownStartTime := 0 }

/-- A concrete layer-start oracle. -/
def trivialResetOracle : ResetOracle :=
  ⟨1 / 2, 1 / 2, 1 / 2, 0, fun _ => 1, fun _ => 0⟩

/-- A concrete kinematics oracle for one tick. -/
def trivialKinOracle : KinOracle :=
  ⟨fun a => a, fun _ => 1, fun _ => 0, fun _ _ => 0, false, 0⟩

/-- A layer-0 metrics record used to exercise the scoring pipeline. -/
def sampleMetrics : LayerMetrics :=
  { sessionId := "s", layer := 0, meanRT := some 100, rtVariance := some 50 }

/-- An empty baseline store. -/
def emptyBaselines : Baselines := fun _ => none

/-- The `balanced` weight profile seeded by the database migration. -/
def balancedProfile : WeightProfile :=
  { id := "balanced"
    name := "Balanced"
    isCustom := false
    weights :=
      { alpha := 35 / 100
        L0 := ⟨6 / 10, 4 / 10⟩
        L1 := ⟨35 / 100, 25 / 100, 2 / 10, 2 / 10⟩
        L2 := ⟨25 / 100, 25 / 100, 2 / 10, 3 / 10⟩
        L3 := ⟨15 / 100, 15 / 100, 2 / 10, 15 / 100, 15 / 100, 2 / 10⟩ } }

/-! ## Theorems -/

theorem sortQ_sorted (l : List ℚ) : List.Sorted (· ≤ ·) (sortQ l) :=
  List.sorted_insertionSort _ l

theorem sortQ_perm (l : List ℚ) : List.Perm (sortQ l) l :=
  List.perm_insertionSort _ l

theorem sortQ_length (l : List ℚ) : (sortQ l).length = l.length :=
  (sortQ_perm l).length_eq

theorem mem_of_mem_sortQ {l : List ℚ} {x : ℚ} (h : x ∈ sortQ l) : x ∈ l :=
  (sortQ_perm l).mem_iff.1 h

/-- The median is an element of the list or the average of two of its
elements. -/
theorem median_cases {l : List ℚ} (hne : l ≠ []) :
    (∃ x ∈ l, median l = x) ∨ ∃ x ∈ l, ∃ y ∈ l, median l = (x + y) / 2 := by
  have hlen : 0 < l.length := List.length_pos.2 hne
  have hslen : (sortQ l).length = l.length := sortQ_length l
  simp only [median, if_neg (by omega : ¬ l.length = 0)]
  by_cases hpar : (sortQ l).length % 2 = 1
  · rw [if_pos hpar]
    left
    have hidx : (sortQ l).length / 2 < (sortQ l).length := by omega
    rw [List.getD_eq_getElem _ _ hidx]
    exact ⟨_, mem_of_mem_sortQ (List.getElem_mem hidx), rfl⟩
  · rw [if_neg hpar]
    right
    have hidx2 : (sortQ l).length / 2 < (sortQ l).length := by omega
    have hidx1 : (sortQ l).length / 2 - 1 < (sortQ l).length := by omega
    rw [List.getD_eq_getElem _ _ hidx1, List.getD_eq_getElem _ _ hidx2]
    exact ⟨_, mem_of_mem_sortQ (List.getElem_mem hidx1), _,
      mem_of_mem_sortQ (List.getElem_mem hidx2), rfl⟩

theorem le_median {l : List ℚ} {a : ℚ} (hne : l ≠ []) (h : ∀ x ∈ l, a ≤ x) :
    a ≤ median l := by
  rcases median_cases hne with ⟨x, hx, hm⟩ | ⟨x, hx, y, hy, hm⟩
  · rw [hm]; exact h x hx
  · rw [hm]; have hxa := h x hx; have hya := h y hy; linarith

theorem median_le {l : List ℚ} {b : ℚ} (hne : l ≠ []) (h : ∀ x ∈ l, x ≤ b) :
    median l ≤ b := by
  rcases median_cases hne with ⟨x, hx, hm⟩ | ⟨x, hx, y, hy, hm⟩
  · rw [hm]; exact h x hx
  · rw [hm]; have hxa := h x hx; have hya := h y hy; linarith

theorem sorted_getElem_le {s : List ℚ} (hs : List.Sorted (· ≤ ·) s) {i j : ℕ}
    (hij : i ≤ j) (hj : j < s.length) :
    s.get ⟨i, lt_of_le_of_lt hij hj⟩ ≤ s.get ⟨j, hj⟩ :=
  hs.rel_get_of_le hij

theorem sorted_getD_mono {s : List ℚ} (hs : List.Sorted (· ≤ ·) s) {i j : ℕ}
    (hij : i ≤ j) (hj : j < s.length) : s.getD i 0 ≤ s.getD j 0 := by
  have hi : i < s.length := lt_of_le_of_lt hij hj
  rw [List.getD_eq_getElem _ _ hi, List.getD_eq_getElem _ _ hj]
  exact sorted_getElem_le hs hij hj

theorem sorted_head_le {s : List ℚ} (hs : List.Sorted (· ≤ ·) s) :
    ∀ x ∈ s, s.getD 0 0 ≤ x := by
  intro x hx
  obtain ⟨i, hi, hix⟩ := List.getElem_of_mem hx
  rw [← hix, List.getD_eq_getElem _ _ (by omega : 0 < s.length)]
  exact sorted_getElem_le hs (Nat.zero_le i) hi

theorem sorted_le_last {s : List ℚ} (hs : List.Sorted (· ≤ ·) s) :
    ∀ x ∈ s, x ≤ s.getD (s.length - 1) 0 := by
  intro x hx
  obtain ⟨i, hi, hix⟩ := List.getElem_of_mem hx
  rw [← hix, List.getD_eq_getElem _ _ (by omega : s.length - 1 < s.length)]
  exact sorted_getElem_le hs (by omega) (by omega)

theorem mem_take_le {s : List ℚ} (hs : List.Sorted (· ≤ ·) s) {k : ℕ}
    (hk : k ≤ s.length) (hkpos : 0 < k) : ∀ x ∈ s.take k, x ≤ s.getD (k - 1) 0 := by
  intro x hx
  obtain ⟨i, hi, hix⟩ := List.getElem_of_mem hx
  have hilen : i < k := by simp only [List.length_take] at hi; omega
  have hilen2 : i < s.length := by omega
  have hieq : x = s[i] := by
    rw [← hix]
    exact List.getElem_take s
  rw [hieq, List.getD_eq_getElem _ _ (by omega : k - 1 < s.length)]
  exact hs.rel_get_of_le (Nat.le_pred_of_lt hilen)

theorem mem_drop_ge {s : List ℚ} (hs : List.Sorted (· ≤ ·) s) {k : ℕ}
    (hk : k < s.length) : ∀ x ∈ s.drop k, s.getD k 0 ≤ x := by
  intro x hx
  obtain ⟨i, hi, hix⟩ := List.getElem_of_mem hx
  have hilen : i < s.length - k := by simpa [List.length_drop] using hi
  have hilen2 : k + i < s.length := by omega
  have hieq : x = s[k + i] := by
    rw [← hix]
    exact List.getElem_drop s
  rw [hieq, List.getD_eq_getElem _ _ hk]
  exact hs.rel_get_of_le (Nat.le_add_right k i)

/-- The median of a list of length `≥ 2` is squeezed between the two
middle entries of its sorted version. -/
theorem median_between {l : List ℚ} (hlen : 0 < l.length) :
    (sortQ l).getD ((sortQ l).length / 2 - 1) 0 ≤ median l ∧
      median l ≤ (sortQ l).getD ((sortQ l).length / 2) 0 := by
  have hslen : (sortQ l).length = l.length := sortQ_length l
  have hs := sortQ_sorted l
  simp only [median, if_neg (by omega : ¬ l.length = 0)]
  have hmono : (sortQ l).getD ((sortQ l).length / 2 - 1) 0 ≤
      (sortQ l).getD ((sortQ l).length / 2) 0 :=
    sorted_getD_mono hs (by omega) (by omega)
  by_cases hpar : (sortQ l).length % 2 = 1
  · rw [if_pos hpar]
    exact ⟨hmono, le_refl _⟩
  · rw [if_neg hpar]
    constructor <;> linarith

/-- C1: the spec's Scenario C asserts Q1 = 20 and Q3 = 40 for the sample
[10,20,30,40,50]; the code's exclusive median-of-halves split instead
yields Q1 = median [10,20] = 15 and Q3 = median [40,50] = 45, refuting
the stated quartiles at this exact input. -/
theorem claim_C1_counterexample :
    (iqr [10, 20, 30, 40, 50]).q1 = 15 ∧ (iqr [10, 20, 30, 40, 50]).q3 = 45 ∧
      ¬((iqr [10, 20, 30, 40, 50]).q1 = 20 ∧ (iqr [10, 20, 30, 40, 50]).q3 = 40) := by
  refine ⟨?_, ?_, ?_⟩ <;>
    norm_num [iqr, median, sortQ, List.insertionSort, List.orderedInsert]

/-- C1 (amended): for the sample [10,20,30,40,50] the routines return
median = 30, Q1 = 15, Q3 = 45 (exclusive median-of-halves), and scaled
MAD = 1.4826 × 10 = 14.826. -/
theorem claim_C1 :
    median [10, 20, 30, 40, 50] = 30 ∧
      (iqr [10, 20, 30, 40, 50]).q1 = 15 ∧
      (iqr [10, 20, 30, 40, 50]).q3 = 45 ∧
      mad [10, 20, 30, 40, 50] = 14826 / 1000 := by
  refine ⟨?_, ?_, ?_, ?_⟩ <;>
    norm_num [iqr, mad, median, sortQ, List.insertionSort, List.orderedInsert]

/-- C2: as stated over every non-empty list the ordering fails, because
`Statistics.iqr` returns Q1 = Q3 = 0 for samples with fewer than 4
values; on the non-empty sample [5] we get min = 5 but Q1 = 0. -/
theorem claim_C2_counterexample : ¬ minVal [(5 : ℚ)] ≤ (iqr [(5 : ℚ)]).q1 := by
  norm_num [iqr, minVal, sortQ, List.insertionSort, List.orderedInsert]

/-- C2 (amended): for every list of at least 4 numbers the computed
quartiles and median satisfy min ≤ Q1 ≤ median ≤ Q3 ≤ max. -/
theorem claim_C2 (l : List ℚ) (h4 : 4 ≤ l.length) :
    minVal l ≤ (iqr l).q1 ∧ (iqr l).q1 ≤ median l ∧
      median l ≤ (iqr l).q3 ∧ (iqr l).q3 ≤ maxVal l := by
  have hslen : (sortQ l).length = l.length := sortQ_length l
  have hs := sortQ_sorted l
  have hq1 : (iqr l).q1 = median ((sortQ l).take ((sortQ l).length / 2)) := by
    simp only [iqr, if_neg (by omega : ¬ l.length < 4)]
  have hq3 : (iqr l).q3 = median ((sortQ l).drop (((sortQ l).length + 1) / 2)) := by
    simp only [iqr, if_neg (by omega : ¬ l.length < 4)]
  have hlow_ne : (sortQ l).take ((sortQ l).length / 2) ≠ [] := by
    have : ((sortQ l).take ((sortQ l).length / 2)).length = (sortQ l).length / 2 := by
      simp only [List.length_take]; omega
    intro hcon
    rw [hcon] at this
    simp at this
    omega
  have hupp_ne : (sortQ l).drop (((sortQ l).length + 1) / 2) ≠ [] := by
    have : ((sortQ l).drop (((sortQ l).length + 1) / 2)).length =
        (sortQ l).length - ((sortQ l).length + 1) / 2 := by
      simp only [List.length_drop]
    intro hcon
    rw [hcon] at this
    simp at this
    omega
  have hbet := median_between (l := l) (by omega)
  refine ⟨?_, ?_, ?_, ?_⟩
  · rw [hq1]
    refine le_median hlow_ne ?_
    intro x hx
    exact sorted_head_le hs x (List.mem_of_mem_take hx)
  · have h1 : (iqr l).q1 ≤ (sortQ l).getD ((sortQ l).length / 2 - 1) 0 := by
      rw [hq1]
      exact median_le hlow_ne (fun x hx => mem_take_le hs (by omega) (by omega) x hx)
    exact le_trans h1 hbet.1
  · have h2 : (sortQ l).getD ((sortQ l).length / 2) 0 ≤ (iqr l).q3 := by
      rw [hq3]
      refine le_median hupp_ne ?_
      intro x hx
      have hstep : (sortQ l).getD ((sortQ l).length / 2) 0 ≤
          (sortQ l).getD (((sortQ l).length + 1) / 2) 0 :=
        sorted_getD_mono hs (by omega) (by omega)
      exact le_trans hstep (mem_drop_ge hs (by omega) x hx)
    exact le_trans hbet.2 h2
  · have h3 : (iqr l).q3 ≤ (sortQ l).getD ((sortQ l).length - 1) 0 := by
      rw [hq3]
      exact median_le hupp_ne (fun x hx => sorted_le_last hs x (List.mem_of_mem_drop hx))
    have h4 : maxVal l = (sortQ l).getD ((sortQ l).length - 1) 0 := by
      unfold maxVal
      rw [hslen]
    rw [h4]
    exact h3

/-- C2 witness: the amended ordering at the concrete sample
[10,20,30,40,50], where min = 10, Q1 = 15, median = 30, Q3 = 45,
max = 50. -/
theorem claim_C2_witness :
    minVal [10, 20, 30, 40, 50] ≤ (iqr [10, 20, 30, 40, 50]).q1 ∧
      (iqr [10, 20, 30, 40, 50]).q1 ≤ median [10, 20, 30, 40, 50] ∧
      median [10, 20, 30, 40, 50] ≤ (iqr [10, 20, 30, 40, 50]).q3 ∧
      (iqr [10, 20, 30, 40, 50]).q3 ≤ maxVal [10, 20, 30, 40, 50] :=
  claim_C2 [10, 20, 30, 40, 50] (by norm_num)

theorem clamp_bounds (lo hi a : ℚ) (h : lo ≤ hi) :
    lo ≤ max lo (min hi a) ∧ max lo (min hi a) ≤ hi :=
  ⟨le_max_left _ _, max_le h (min_le_left _ _)⟩

/-- C6: the degradation coefficient equals LPI3/LPI0 clamped to [0,1]
when LPI0 is at or above the validity floor 15, and is null when LPI0 is
below the floor or either LPI is null; in particular LPI0 = 10 gives
null regardless of LPI3. -/
theorem claim_C6 :
    (∀ x y : ℚ, DC_VALIDITY_THRESHOLD ≤ x →
        computeDC (some x) (some y) = some (max 0 (min 1 (y / x)))) ∧
      (∀ x y : ℚ, x < DC_VALIDITY_THRESHOLD → computeDC (some x) (some y) = none) ∧
      (∀ b : Option ℚ, computeDC none b = none) ∧
      (∀ a : Option ℚ, computeDC a none = none) ∧
      (∀ b : Option ℚ, computeDC (some 10) b = none) := by
  refine ⟨?_, ?_, ?_, ?_, ?_⟩
  · intro x y h
    simp [computeDC, not_lt.2 h]
  · intro x y h
    simp [computeDC, h]
  · intro b
    cases b <;> simp [computeDC]
  · intro a
    cases a <;> simp [computeDC]
  · intro b
    cases b with
    | none => simp [computeDC]
    | some y => norm_num [computeDC, DC_VALIDITY_THRESHOLD]

/-- C6 witness: LPI0 = 20 (above the floor), LPI3 = 10 gives
DC = clamp(10/20) = 1/2. -/
theorem claim_C6_witness :
    computeDC (some 20) (some 10) = some (max 0 (min 1 (10 / 20))) :=
  claim_C6.1 20 10 (by norm_num [DC_VALIDITY_THRESHOLD])

/-- Every non-null result of `computeLPI` is clamped into [0, 100]. -/
theorem computeLPI_bounds (layer : ℕ) (m : LayerMetrics) (bl : Baselines)
    (wp : WeightProfile) {x : ℚ} (h : computeLPI layer m bl wp = some x) :
    0 ≤ x ∧ x ≤ 100 := by
  simp only [computeLPI] at h
  split_ifs at h with h1 h2
  obtain rfl : max 0 (min 100 _) = x := Option.some_injective _ h
  exact clamp_bounds 0 100 _ (by norm_num)

theorem mean_bounds {l : List ℚ} (hne : l ≠ [])
    (h : ∀ x ∈ l, 0 ≤ x ∧ x ≤ 100) :
    0 ≤ l.sum / (l.length : ℚ) ∧ l.sum / (l.length : ℚ) ≤ 100 := by
  have hlpos : (0 : ℚ) < l.length := by
    have := List.length_pos.2 hne
    exact_mod_cast this
  have hsum0 : 0 ≤ l.sum := List.sum_nonneg (fun x hx => (h x hx).1)
  have hsum100 : l.sum ≤ l.length • (100 : ℚ) :=
    List.sum_le_card_nsmul l 100 (fun x hx => (h x hx).2)
  rw [nsmul_eq_mul] at hsum100
  constructor
  · exact div_nonneg hsum0 hlpos.le
  · rw [div_le_iff₀ hlpos]
    linarith

/-- Every non-null result of `computeCRS` lies in [0, 100] provided each
non-null input LPI does. -/
theorem computeCRS_bounds (lpis : List (Option ℚ)) (dc : Option ℚ) (alpha : ℚ)
    (hl : ∀ v : ℚ, some v ∈ lpis → 0 ≤ v ∧ v ≤ 100) {c : ℚ}
    (h : computeCRS lpis dc alpha = some c) : 0 ≤ c ∧ c ≤ 100 := by
  have hmem : ∀ x ∈ lpis.filterMap id, 0 ≤ x ∧ x ≤ 100 := by
    intro x hx
    obtain ⟨a, ha, hax⟩ := List.mem_filterMap.1 hx
    obtain rfl : a = some x := by simpa [id] using hax
    exact hl x ha
  by_cases h1 : (lpis.filterMap id).length = 0
  · simp [computeCRS, h1] at h
  · have hne : lpis.filterMap id ≠ [] := by
      intro hcon
      rw [hcon] at h1
      simp at h1
    cases dc with
    | none =>
      simp only [computeCRS] at h
      rw [if_neg h1] at h
      injection h with h2
      subst h2
      exact mean_bounds hne hmem
    | some d =>
      simp only [computeCRS] at h
      rw [if_neg h1] at h
      injection h with h2
      subst h2
      exact clamp_bounds 0 100 _ (by norm_num)

theorem bind_lpi_bounds {o : Option LayerMetrics} {layer : ℕ} {bl : Baselines}
    {wp : WeightProfile} {v : ℚ}
    (h : o.bind (fun m => computeLPI layer m bl wp) = some v) : 0 ≤ v ∧ v ≤ 100 := by
  cases o with
  | none => simp at h
  | some m =>
    simp only [Option.some_bind] at h
    exact computeLPI_bounds layer m bl wp h

/-- C5: every non-null LPI is in [0,100]; every non-null degradation
coefficient is in [0,1]; every non-null CRS produced by the session
scoring pipeline (for any layer metrics, baseline map and weight
profile) is in [0,100]. -/
theorem claim_C5 :
    (∀ (layer : ℕ) (m : LayerMetrics) (bl : Baselines) (wp : WeightProfile) (x : ℚ),
        computeLPI layer m bl wp = some x → 0 ≤ x ∧ x ≤ 100) ∧
      (∀ (a b : Option ℚ) (d : ℚ), computeDC a b = some d → 0 ≤ d ∧ d ≤ 1) ∧
      (∀ (lm : List LayerMetrics) (bl : Baselines) (wp : WeightProfile) (c : ℚ),
        (computeSessionScores lm bl wp).crs = some c → 0 ≤ c ∧ c ≤ 100) := by
  refine ⟨?_, ?_, ?_⟩
  · intro layer m bl wp x h
    exact computeLPI_bounds layer m bl wp h
  · intro a b d h
    match a, b with
    | none, b => simp [computeDC] at h
    | some x, none => simp [computeDC] at h
    | some x, some y =>
      simp only [computeDC] at h
      split_ifs at h
      obtain rfl : max 0 (min 1 (y / x)) = d := Option.some_injective _ h
      exact clamp_bounds 0 1 _ (by norm_num)
  · intro lm bl wp c h
    simp only [computeSessionScores] at h
    refine computeCRS_bounds _ _ _ ?_ h
    intro v hv
    simp only [List.mem_cons, List.not_mem_nil, or_false] at hv
    rcases hv with hv | hv | hv | hv <;> exact bind_lpi_bounds hv.symm

set_option maxHeartbeats 1000000 in
/-- C5 witness: layer-0 metrics with no baselines under the balanced
profile give LPI = 50 ∈ [0,100]; DC(20, 10) = 1/2 ∈ [0,1]; a one-layer
session gives CRS = 50 ∈ [0,100]. -/
theorem claim_C5_witness :
    ((0 : ℚ) ≤ 50 ∧ (50 : ℚ) ≤ 100) ∧ ((0 : ℚ) ≤ 1 / 2 ∧ (1 / 2 : ℚ) ≤ 1) ∧
      ((0 : ℚ) ≤ 50 ∧ (50 : ℚ) ≤ 100) := by
  have hneq : ("rt_variance" : String) ≠ "rt" := by decide
  have hlpi : computeLPI 0 sampleMetrics emptyBaselines balancedProfile = some 50 := by
    norm_num [computeLPI, extractMetricsForLayer, layerWeight, linearNormalization,
      sampleMetrics, emptyBaselines, balancedProfile, List.filterMap_cons, hneq]
  have hcrs : (computeSessionScores [sampleMetrics] emptyBaselines balancedProfile).crs =
      some 50 := by
    simp only [computeSessionScores, List.getElem?_cons_zero, List.getElem?_cons_succ,
      List.getElem?_nil, Option.some_bind, Option.none_bind, hlpi]
    norm_num [computeDC, computeCRS, emptyBaselines]
    refine ⟨by simp, ?_⟩
    norm_num [List.filterMap_cons, List.filterMap_nil]
  exact ⟨claim_C5.1 0 sampleMetrics emptyBaselines balancedProfile 50 hlpi,
    claim_C5.2.1 (some 20) (some 10) (1 / 2)
      (by norm_num [computeDC, DC_VALIDITY_THRESHOLD]),
    claim_C5.2.2 [sampleMetrics] emptyBaselines balancedProfile 50 hcrs⟩

/-- C8: as stated over every statistics routine the claim fails:
`mannWhitneyU` on the zero-variance (non-empty) samples [5,5] and [5,5]
returns the JS `NaN` sentinel as its p-value (modelled as `none`) — a
defined but not finite neutral default. -/
theorem claim_C8_counterexample : (mannWhitneyU [5, 5] [5, 5]).pValue = none := by
  norm_num [mannWhitneyU]

/-- C8 (amended): the statistics routines return defined neutral
defaults on degenerate input without raising — the modified z-score is 0
whenever the baseline is empty or the scaled MAD is 0, and
skewness/kurtosis are 0 for samples with fewer than 4 values or zero
variance — except that Mann-Whitney U's p-value is a NaN sentinel
whenever both groups are non-empty and either has at most 20 values. -/
theorem claim_C8 :
    (∀ (v : ℚ) (m s : Option ℚ), modifiedZScore v [] m s = 0) ∧
      (∀ (v : ℚ) (b : List ℚ) (m : Option ℚ), modifiedZScore v b m (some 0) = 0) ∧
      (∀ (v : ℚ) (b : List ℚ), mad b = 0 → modifiedZScore v b none none = 0) ∧
      (∀ l : List ℚ, l.length < 4 → shapeStatistics l = ⟨0, 0⟩) ∧
      (∀ l : List ℚ, sampleVariance l = 0 → shapeStatistics l = ⟨0, 0⟩) ∧
      (∀ g : List ℚ, mannWhitneyU [] g = ⟨0, some 1⟩) ∧
      (∀ g1 g2 : List ℚ, g1 ≠ [] → g2 ≠ [] → (g1.length ≤ 20 ∨ g2.length ≤ 20) →
        (mannWhitneyU g1 g2).pValue = none) := by
  refine ⟨?_, ?_, ?_, ?_, ?_, ?_, ?_⟩
  · intro v m s
    simp [modifiedZScore]
  · intro v b m
    by_cases hb : b.length = 0
    · simp [modifiedZScore, hb]
    · simp [modifiedZScore, hb]
  · intro v b h
    by_cases hb : b.length = 0
    · simp [modifiedZScore, hb]
    · simp [modifiedZScore, hb, h]
  · intro l h
    simp [shapeStatistics, h]
  · intro l h
    simp only [shapeStatistics]
    split_ifs with h1 h2
    · rfl
    · rfl
    · exfalso
      apply h2
      rw [h]
      norm_num
  · intro g
    simp [mannWhitneyU]
  · intro g1 g2 hg1 hg2 hle
    have hc1 : ¬(g1.length = 0 ∨ g2.length = 0) := by
      push_neg
      exact ⟨fun h => hg1 (List.length_eq_zero.1 h), fun h => hg2 (List.length_eq_zero.1 h)⟩
    have hc2 : ¬(20 < g1.length ∧ 20 < g2.length) := by omega
    simp only [mannWhitneyU]
    rw [if_neg hc1, if_neg hc2]

/-- C8 witness: concrete degenerate inputs — z-score of 7 against the
zero-MAD baseline [3,3,3] is 0; shape statistics of the short sample
[1,2] and of the zero-variance sample [2,2,2,2] are (0,0); Mann-Whitney
on the small samples [1,2] vs [3] has the NaN sentinel p-value. -/
theorem claim_C8_witness :
    modifiedZScore 7 [3, 3, 3] none none = 0 ∧
      shapeStatistics [1, 2] = ⟨0, 0⟩ ∧
      shapeStatistics [2, 2, 2, 2] = ⟨0, 0⟩ ∧
      (mannWhitneyU [1, 2] [3]).pValue = none :=
  ⟨claim_C8.2.2.1 7 [3, 3, 3]
      (by norm_num [mad, median, sortQ, List.insertionSort, List.orderedInsert]),
   claim_C8.2.2.2.1 [1, 2] (by norm_num),
   claim_C8.2.2.2.2.1 [2, 2, 2, 2] (by norm_num [sampleVariance, listMean]),
   claim_C8.2.2.2.2.2.2 [1, 2] [3] (by simp) (by simp) (by norm_num)⟩

theorem length_filterMap_eq_countP {α β : Type} (f : α → Option β) (l : List α) :
    (l.filterMap f).length = l.countP (fun a => (f a).isSome) := by
  induction l with
  | nil => simp
  | cons x xs ih =>
    cases hfx : f x with
    | none => simp [List.filterMap_cons, hfx, List.countP_cons, ih]
    | some b => simp [List.filterMap_cons, hfx, List.countP_cons, ih]

/-- A cue contributes a reaction time exactly when its first in-window
response exists and is at or above the anticipation floor. -/
theorem audioMatchRT_isSome (s : List RawEvent) (c : RawEvent) :
    (audioMatchRT s c).isSome = codeMatched s c := by
  simp only [audioMatchRT, codeMatched]
  cases h : s.find? (inResponseWindow c) with
  | none => rfl
  | some r =>
    by_cases hrt : RT_MIN_MS ≤ (r.timestampUs - c.timestampUs) / 1000
    · simp [hrt]
    · simp [hrt]

/-- C3: as stated the claim fails, because matching takes the *first*
SPACE response inside the window and rejects the whole cue when that
response is under the 100 ms floor, rather than skipping to the next
qualifying response as the spec's wording implies.  For a cue at
1,000,000 µs with SPACE presses at +50 ms (below the floor) and +200 ms
(qualifying), the code reports accuracy 0 while the spec's matching
yields accuracy 1. -/
theorem claim_C3_counterexample :
    (audioMetrics exC3).audioAccuracy = 0 ∧ specAudioAccuracy exC3 = 1 := by
  constructor <;>
    norm_num [audioMetrics, specAudioAccuracy, signalCuesOf, distractorCuesOf,
      spaceResponsesOf, audioMatchRT, isQualifyingResponse, inResponseWindow,
      exC3, sortByTime, RT_MIN_MS, RT_MAX_MS, List.insertionSort, List.orderedInsert,
      List.filterMap_cons, List.countP_cons, List.find?]

/-- C3 (amended): for every event log, the accuracy is the number of
non-distractor cues whose first in-window SPACE response is at or above
the 100 ms anticipation floor (a too-fast first response rejects the
cue) divided by the number of signal cues, and the false-positive count
is the number of distractor cues with any SPACE response inside the same
window. -/
theorem claim_C3 (events : List RawEvent) :
    (audioMetrics events).audioAccuracy =
      (if (signalCuesOf events).length = 0 then 0
       else ((signalCuesOf events).countP (codeMatched (spaceResponsesOf events)) : ℚ) /
         ((signalCuesOf events).length : ℚ)) ∧
      (audioMetrics events).audioFalsePositives =
        (distractorCuesOf events).countP
          (fun d => ((spaceResponsesOf events).find? (inResponseWindow d)).isSome) := by
  constructor
  · have hlen : ((signalCuesOf events).filterMap
        (audioMatchRT (spaceResponsesOf events))).length =
        (signalCuesOf events).countP (codeMatched (spaceResponsesOf events)) := by
      rw [length_filterMap_eq_countP]
      simp only [audioMatchRT_isSome]
    simp only [audioMetrics, hlen]
  · rfl

/-- On a list sorted by descending timestamp, `find?` of "timestamp
before t" returns an entry before `t` that is latest among all entries
before `t`. -/
theorem find_desc {t : ℚ} :
    ∀ (l : List RawEvent),
      List.Sorted (fun a b : RawEvent => b.timestampUs ≤ a.timestampUs) l →
      ∀ (s : RawEvent), l.find? (fun e => decide (e.timestampUs < t)) = some s →
        s.timestampUs < t ∧ ∀ e ∈ l, e.timestampUs < t → e.timestampUs ≤ s.timestampUs := by
  intro l
  induction l with
  | nil =>
    intro _ s h
    simp at h
  | cons a l ih =>
    intro hsort s hfind
    by_cases ha : a.timestampUs < t
    · rw [List.find?_cons_of_pos _ (by simpa using ha)] at hfind
      injection hfind with h1
      subst h1
      refine ⟨ha, ?_⟩
      intro e he het
      rcases List.mem_cons.1 he with rfl | he'
      · exact le_refl _
      · exact List.rel_of_sorted_cons hsort e he'
    · rw [List.find?_cons_of_neg _ (by simpa using ha)] at hfind
      obtain ⟨h1, h2⟩ := ih hsort.of_cons s hfind
      refine ⟨h1, ?_⟩
      intro e he het
      rcases List.mem_cons.1 he with rfl | he'
      · exact absurd het ha
      · exact h2 e he' het

/-- The backward scan of `reactionTime` returns the *nearest* preceding
stimulus: it is strictly before the click, and no stimulus strictly
before the click is later than it. -/
theorem findPrecedingStimulus_nearest {stimuli : List RawEvent}
    (hs : List.Sorted (fun a b : RawEvent => a.timestampUs ≤ b.timestampUs) stimuli)
    {t : ℚ} {s : RawEvent} (h : findPrecedingStimulus stimuli t = some s) :
    s.timestampUs < t ∧ ∀ e ∈ stimuli, e.timestampUs < t →
      e.timestampUs ≤ s.timestampUs := by
  have hrev : List.Sorted (fun a b : RawEvent => b.timestampUs ≤ a.timestampUs)
      stimuli.reverse := by
    rw [List.Sorted, List.pairwise_reverse]
    exact hs
  obtain ⟨h1, h2⟩ := find_desc stimuli.reverse hrev s h
  exact ⟨h1, fun e he het => h2 e (List.mem_reverse.2 he) het⟩

/-- C7: each click is matched to the nearest preceding stimulus onset
(the backward scan over the time-sorted stimuli picks the latest
stimulus strictly before the click); a 250 ms latency is valid
(Scenario A: meanRT = 250, no anticipations or lapses) and a 50 ms
latency counts as an anticipation excluded from the mean (Scenario B:
meanRT over valid latencies is the empty default 0,
anticipationCount = 1). -/
theorem claim_C7 :
    (∀ (stimuli : List RawEvent),
        List.Sorted (fun a b : RawEvent => a.timestampUs ≤ b.timestampUs) stimuli →
        ∀ (t : ℚ) (s : RawEvent), findPrecedingStimulus stimuli t = some s →
          s.timestampUs < t ∧ ∀ e ∈ stimuli, e.timestampUs < t →
            e.timestampUs ≤ s.timestampUs) ∧
      reactionTime exC7A = ⟨250, 0, 0, 0⟩ ∧
      reactionTime exC7B = ⟨0, 0, 1, 0⟩ := by
  refine ⟨?_, ?_, ?_⟩
  · intro stimuli hs t s h
    exact findPrecedingStimulus_nearest hs h
  · norm_num [reactionTime, sortByTime, findPrecedingStimulus, exC7A,
      RT_MIN_MS, RT_MAX_MS, List.insertionSort, List.orderedInsert,
      List.find?, List.filter_cons]
  · norm_num [reactionTime, sortByTime, findPrecedingStimulus, exC7B,
      RT_MIN_MS, RT_MAX_MS, List.insertionSort, List.orderedInsert,
      List.find?, List.filter_cons]

/-- C7 witness: a single stimulus at 1,000,000 µs is the nearest
preceding stimulus for a click at 1,250,000 µs. -/
theorem claim_C7_witness :
    (⟨"s", 0, EventType.stimulus_onset, 1000000, {}⟩ : RawEvent).timestampUs < 1250000 ∧
      ∀ e ∈ [(⟨"s", 0, EventType.stimulus_onset, 1000000, {}⟩ : RawEvent)],
        e.timestampUs < 1250000 →
          e.timestampUs ≤ (⟨"s", 0, EventType.stimulus_onset, 1000000,
            {}⟩ : RawEvent).timestampUs :=
  claim_C7.1 [⟨"s", 0, EventType.stimulus_onset, 1000000, {}⟩] (by simp) 1250000
    ⟨"s", 0, EventType.stimulus_onset, 1000000, {}⟩
    (by norm_num [findPrecedingStimulus, List.find?])

theorem take_set_succ {α : Type} :
    ∀ (l : List α) (i : ℕ) (a : α), i < l.length →
      (l.set i a).take (i + 1) = l.take i ++ [a]
  | [], i, _, h => by simp at h
  | _ :: _, 0, _, _ => by simp
  | x :: xs, i + 1, a, h => by
    have ih := take_set_succ xs i a (by simpa using h)
    simp [ih]

/-- C9: at capacity (50,000 events) `recordEvent` leaves the state
unchanged and raises the capacity warning; below capacity it stores the
event at the write cursor (stamped with the engine's session id),
advances the cursor, keeps all earlier events readable in order, and
leaves the phase/running flags — the session — untouched. -/
theorem claim_C9 (st : EngineState) (e : RawEvent) :
    (MAX_EVENTS ≤ st.eventIndex → recordEvent st e = (st, true)) ∧
      (st.eventIndex < MAX_EVENTS → st.events.length = MAX_EVENTS →
        (recordEvent st e).2 = false ∧
        (recordEvent st e).1.eventIndex = st.eventIndex + 1 ∧
        getEvents (recordEvent st e).1 =
          getEvents st ++ [{e with sessionId := st.sessionId}] ∧
        (recordEvent st e).1.phase = st.phase ∧
        (recordEvent st e).1.isRunning = st.isRunning) := by
  constructor
  · intro h
    simp [recordEvent, h]
  · intro h hlen
    have hn : ¬ MAX_EVENTS ≤ st.eventIndex := by omega
    refine ⟨by simp [recordEvent, hn], by simp [recordEvent, hn], ?_,
      by simp [recordEvent, hn], by simp [recordEvent, hn]⟩
    simp only [recordEvent, if_neg hn, getEvents]
    exact take_set_succ st.events st.eventIndex _ (by omega)

/-- C9 witness: a fresh engine accepts an event at cursor 0; the same
engine with its cursor forced to 50,000 rejects it unchanged with the
warning raised. -/
theorem claim_C9_witness :
    (recordEvent {sampleEngineState with eventIndex := MAX_EVENTS}
        ⟨"x", 0, EventType.click, 123, {}⟩ =
      ({sampleEngineState with eventIndex := MAX_EVENTS}, true)) ∧
      ((recordEvent sampleEngineState ⟨"x", 0, EventType.click, 123, {}⟩).2 = false ∧
        (recordEvent sampleEngineState ⟨"x", 0, EventType.click, 123, {}⟩).1.eventIndex =
          sampleEngineState.eventIndex + 1 ∧
        getEvents (recordEvent sampleEngineState ⟨"x", 0, EventType.click, 123, {}⟩).1 =
          getEvents sampleEngineState ++
            [{(⟨"x", 0, EventType.click, 123, {}⟩ : RawEvent) with
                sessionId := sampleEngineState.sessionId}] ∧
        (recordEvent sampleEngineState ⟨"x", 0, EventType.click, 123, {}⟩).1.phase =
          sampleEngineState.phase ∧
        (recordEvent sampleEngineState ⟨"x", 0, EventType.click, 123, {}⟩).1.isRunning =
          sampleEngineState.isRunning) :=
  ⟨(claim_C9 {sampleEngineState with eventIndex := MAX_EVENTS}
      ⟨"x", 0, EventType.click, 123, {}⟩).1 (le_refl _),
   (claim_C9 sampleEngineState ⟨"x", 0, EventType.click, 123, {}⟩).2
      (by norm_num [sampleEngineState, MAX_EVENTS])
      (by simp [sampleEngineState])⟩

/-- C4: as stated the claim fails — `start()` never moves the engine
through a Countdown phase: the only assignment to `phase` during
`start()` from an idle engine is `running` (the 3-2-1 countdown is shown
by the renderer before `engine.start()` is called, outside the
scheduler). -/
theorem claim_C4_counterexample :
    (start 5000 trivialResetOracle sampleEngineState).2 = [Phase.running] ∧
      Phase.countdown ∉ (start 5000 trivialResetOracle sampleEngineState).2 := by
  have h2 : (start 5000 trivialResetOracle sampleEngineState).2 = [Phase.running] := by
    simp [start, startLayer, sampleEngineState]
  refine ⟨h2, ?_⟩
  rw [h2]
  simp

/-- C4 (amended): calling `start()` on a non-running engine transitions
it directly into Running with currentLayer = 0 (no intermediate
Countdown phase inside the engine), and initializes the layer schedule:
the first simple-stimulus emission time is pre-committed at layer start
as layerStartTime plus a draw from [800 ms, 2000 ms]. -/
theorem claim_C4 (st : EngineState) (now : ℚ) (o : ResetOracle)
    (hidle : st.isRunning = false) :
    (start now o st).1.phase = Phase.running ∧
      (start now o st).1.currentLayer = 0 ∧
      (start now o st).1.layerStartTime = now ∧
      (start now o st).2 = [Phase.running] ∧
      (start now o st).1.nextSimpleStimulusTime =
        now + randomInterval 800 2000 o.rStimulus ∧
      (0 ≤ o.rStimulus → o.rStimulus ≤ 1 →
        now + 800 ≤ (start now o st).1.nextSimpleStimulusTime ∧
          (start now o st).1.nextSimpleStimulusTime ≤ now + 2000) := by
  have h1 : ¬ (1 : ℤ) ≤ 0 := by norm_num
  have h2 : ¬ (2 : ℤ) ≤ 0 := by norm_num
  have h3 : (0 : ℤ) ≠ 3 := by norm_num
  have hstart : start now o st = startLayer 0 now o {st with isRunning := true, testStartTime := now, eventIndex := 0, systemStallCount := 0} := by
    unfold start
    rw [hidle]
    rfl
  rw [hstart]
  refine ⟨by simp [startLayer, resetLayerState, h1, h2, h3],
    by simp [startLayer, resetLayerState, h1, h2, h3],
    by simp [startLayer, resetLayerState, h1, h2, h3],
    by simp [startLayer],
    by simp [startLayer, resetLayerState, h1, h2, h3],
    ?_⟩
  intro hr0 hr1
  have hmain : (startLayer 0 now o {st with isRunning := true, testStartTime := now, eventIndex := 0, systemStallCount := 0}).1.nextSimpleStimulusTime =
      now + randomInterval 800 2000 o.rStimulus := by
    simp [startLayer, resetLayerState, h1, h2, h3]
  rw [hmain]
  unfold randomInterval
  constructor <;> nlinarith

/-- C4 witness: starting a fresh idle engine at t = 5000 with a
mid-range random draw. -/
theorem claim_C4_witness :
    (start 5000 trivialResetOracle sampleEngineState).1.phase = Phase.running ∧
      (start 5000 trivialResetOracle sampleEngineState).1.currentLayer = 0 ∧
      (start 5000 trivialResetOracle sampleEngineState).1.layerStartTime = 5000 ∧
      (start 5000 trivialResetOracle sampleEngineState).2 = [Phase.running] ∧
      (start 5000 trivialResetOracle sampleEngineState).1.nextSimpleStimulusTime =
        5000 + randomInterval 800 2000 trivialResetOracle.rStimulus ∧
      (0 ≤ trivialResetOracle.rStimulus → trivialResetOracle.rStimulus ≤ 1 →
        5000 + 800 ≤ (start 5000 trivialResetOracle sampleEngineState).1.nextSimpleStimulusTime ∧
          (start 5000 trivialResetOracle
            sampleEngineState).1.nextSimpleStimulusTime ≤ 5000 + 2000) :=
  claim_C4 sampleEngineState 5000 trivialResetOracle rfl

theorem steerStage_fields (o : KinOracle) (dt : ℚ) (st : EngineState) :
    (steerStage o dt st).targetPosition = st.targetPosition ∧
      (steerStage o dt st).targetRadius = st.targetRadius ∧
      (steerStage o dt st).config = st.config := by
  simp only [steerStage]
  split_ifs <;> exact ⟨rfl, rfl, rfl⟩

theorem moveStage_fields (dt : ℚ) (st : EngineState) :
    (moveStage dt st).targetRadius = st.targetRadius ∧
      (moveStage dt st).config = st.config := by
  exact ⟨rfl, rfl⟩

theorem bounceXStage_fields (o : KinOracle) (st : EngineState) :
    (bounceXStage o st).targetRadius = st.targetRadius ∧
      (bounceXStage o st).config = st.config ∧
      (bounceXStage o st).targetPosition.2 = st.targetPosition.2 := by
  simp only [bounceXStage]
  split_ifs <;> exact ⟨rfl, rfl, rfl⟩

theorem bounceYStage_fields (o : KinOracle) (st : EngineState) :
    (bounceYStage o st).targetRadius = st.targetRadius ∧
      (bounceYStage o st).config = st.config ∧
      (bounceYStage o st).targetPosition.1 = st.targetPosition.1 := by
  simp only [bounceYStage]
  split_ifs <;> exact ⟨rfl, rfl, rfl⟩

theorem steerTriggerStage_fields (o : KinOracle) (st : EngineState) :
    (steerTriggerStage o st).targetPosition = st.targetPosition ∧
      (steerTriggerStage o st).targetRadius = st.targetRadius ∧
      (steerTriggerStage o st).config = st.config := by
  simp only [steerTriggerStage]
  split_ifs <;> exact ⟨rfl, rfl, rfl⟩

theorem syncTargetStage_fields (st : EngineState) :
    (syncTargetStage st).targetPosition = st.targetPosition ∧
      (syncTargetStage st).targetRadius = st.targetRadius ∧
      (syncTargetStage st).config = st.config := by
  simp only [syncTargetStage]
  split <;> exact ⟨rfl, rfl, rfl⟩

/-- After the horizontal bounce block, the x coordinate lies inside
[radius, width − radius] whenever the monitor is at least twice the
radius wide: boundary contact clamps, and otherwise the test's negation
bounds the coordinate strictly. -/
theorem bounceXStage_bounds (o : KinOracle) (st : EngineState)
    (h : 2 * st.targetRadius ≤ st.config.monitorResolution.width) :
    st.targetRadius ≤ (bounceXStage o st).targetPosition.1 ∧
      (bounceXStage o st).targetPosition.1 ≤
        st.config.monitorResolution.width - st.targetRadius := by
  simp only [bounceXStage]
  split_ifs with hc
  · exact ⟨le_max_left _ _, max_le (by linarith) (min_le_left _ _)⟩
  · push_neg at hc
    exact ⟨le_of_lt hc.1, le_of_lt hc.2⟩

theorem bounceYStage_bounds (o : KinOracle) (st : EngineState)
    (h : 2 * st.targetRadius ≤ st.config.monitorResolution.height) :
    st.targetRadius ≤ (bounceYStage o st).targetPosition.2 ∧
      (bounceYStage o st).targetPosition.2 ≤
        st.config.monitorResolution.height - st.targetRadius := by
  simp only [bounceYStage]
  split_ifs with hc
  · exact ⟨le_max_left _ _, max_le (by linarith) (min_le_left _ _)⟩
  · push_neg at hc
    exact ⟨le_of_lt hc.1, le_of_lt hc.2⟩

theorem update_preserves (o : KinOracle) (dt : ℚ) (st : EngineState) :
    (updateTargetPosition o dt st).targetRadius = st.targetRadius ∧
      (updateTargetPosition o dt st).config = st.config := by
  unfold updateTargetPosition
  set s1 := steerStage o dt st with hs1
  set s2 := moveStage dt s1 with hs2
  set s3 := bounceXStage o s2 with hs3
  set s4 := bounceYStage o s3 with hs4
  set s5 := steerTriggerStage o s4 with hs5
  constructor
  · rw [(syncTargetStage_fields s5).2.1, hs5, (steerTriggerStage_fields o s4).2.1,
      hs4, (bounceYStage_fields o s3).1, hs3, (bounceXStage_fields o s2).1,
      hs2, (moveStage_fields dt s1).1, hs1, (steerStage_fields o dt st).2.1]
  · rw [(syncTargetStage_fields s5).2.2, hs5, (steerTriggerStage_fields o s4).2.2,
      hs4, (bounceYStage_fields o s3).2.1, hs3, (bounceXStage_fields o s2).2.1,
      hs2, (moveStage_fields dt s1).2, hs1, (steerStage_fields o dt st).2.2]

/-- One tick puts the target position inside the margin box, whatever
the incoming position was. -/
theorem update_in_box (o : KinOracle) (dt : ℚ) (st : EngineState)
    (hW : 2 * st.targetRadius ≤ st.config.monitorResolution.width)
    (hH : 2 * st.targetRadius ≤ st.config.monitorResolution.height) :
    st.targetRadius ≤ (updateTargetPosition o dt st).targetPosition.1 ∧
      (updateTargetPosition o dt st).targetPosition.1 ≤
        st.config.monitorResolution.width - st.targetRadius ∧
      st.targetRadius ≤ (updateTargetPosition o dt st).targetPosition.2 ∧
      (updateTargetPosition o dt st).targetPosition.2 ≤
        st.config.monitorResolution.height - st.targetRadius := by
  unfold updateTargetPosition
  set s1 := steerStage o dt st with hs1
  set s2 := moveStage dt s1 with hs2
  set s3 := bounceXStage o s2 with hs3
  set s4 := bounceYStage o s3 with hs4
  set s5 := steerTriggerStage o s4 with hs5
  have h1r : s1.targetRadius = st.targetRadius := (steerStage_fields o dt st).2.1
  have h1c : s1.config = st.config := (steerStage_fields o dt st).2.2
  have h2r : s2.targetRadius = st.targetRadius := by
    rw [hs2, (moveStage_fields dt s1).1, h1r]
  have h2c : s2.config = st.config := by
    rw [hs2, (moveStage_fields dt s1).2, h1c]
  have h3r : s3.targetRadius = st.targetRadius := by
    rw [hs3, (bounceXStage_fields o s2).1, h2r]
  have h3c : s3.config = st.config := by
    rw [hs3, (bounceXStage_fields o s2).2.1, h2c]
  have hx : st.targetRadius ≤ s3.targetPosition.1 ∧
      s3.targetPosition.1 ≤ st.config.monitorResolution.width - st.targetRadius := by
    have hb := bounceXStage_bounds o s2 (by rw [h2r, h2c]; exact hW)
    rw [h2r, h2c] at hb
    exact hb
  have hy : st.targetRadius ≤ s4.targetPosition.2 ∧
      s4.targetPosition.2 ≤ st.config.monitorResolution.height - st.targetRadius := by
    have hb := bounceYStage_bounds o s3 (by rw [h3r, h3c]; exact hH)
    rw [h3r, h3c] at hb
    exact hb
  have hx4 : s4.targetPosition.1 = s3.targetPosition.1 := by
    rw [hs4]
    exact (bounceYStage_fields o s3).2.2
  have hpos5 : s5.targetPosition = s4.targetPosition := by
    rw [hs5]
    exact (steerTriggerStage_fields o s4).1
  rw [(syncTargetStage_fields s5).1, hpos5]
  exact ⟨by rw [hx4]; exact hx.1, by rw [hx4]; exact hx.2, hy.1, hy.2⟩

theorem runUpdates_preserves (steps : List (KinOracle × ℚ)) (st : EngineState) :
    (runUpdates steps st).targetRadius = st.targetRadius ∧
      (runUpdates steps st).config = st.config := by
  induction steps generalizing st with
  | nil => exact ⟨rfl, rfl⟩
  | cons p ps ih =>
    simp only [runUpdates, List.foldl_cons] at *
    obtain ⟨ih1, ih2⟩ := ih (updateTargetPosition p.1 p.2 st)
    obtain ⟨u1, u2⟩ := update_preserves p.1 p.2 st
    exact ⟨ih1.trans u1, ih2.trans u2⟩

/-- C10: with a monitor at least twice the target radius in each
dimension, any non-empty sequence of `updateTargetPosition` ticks with
non-negative time deltas, starting from a target initialized at screen
center, leaves the target position inside
[radius, width − radius] × [radius, height − radius]. -/
theorem claim_C10 (st : EngineState) (io : ResetOracle) (steps : List (KinOracle × ℚ))
    (hW : 2 * st.targetRadius ≤ st.config.monitorResolution.width)
    (hH : 2 * st.targetRadius ≤ st.config.monitorResolution.height)
    (hne : steps ≠ []) (hdt : ∀ p ∈ steps, 0 ≤ p.2) :
    st.targetRadius ≤ (runUpdates steps (initializeTarget io st)).targetPosition.1 ∧
      (runUpdates steps (initializeTarget io st)).targetPosition.1 ≤
        st.config.monitorResolution.width - st.targetRadius ∧
      st.targetRadius ≤ (runUpdates steps (initializeTarget io st)).targetPosition.2 ∧
      (runUpdates steps (initializeTarget io st)).targetPosition.2 ≤
        st.config.monitorResolution.height - st.targetRadius := by
  rcases List.eq_nil_or_concat steps with rfl | ⟨L, b, rfl⟩
  · exact absurd rfl hne
  · simp only [List.concat_eq_append] at hne hdt ⊢
    have hinitr : (initializeTarget io st).targetRadius = st.targetRadius := by
      simp [initializeTarget]
    have hinitc : (initializeTarget io st).config = st.config := by
      simp [initializeTarget]
    have hfold := runUpdates_preserves L (initializeTarget io st)
    have hrad : (runUpdates L (initializeTarget io st)).targetRadius = st.targetRadius := by
      rw [hfold.1, hinitr]
    have hcfg : (runUpdates L (initializeTarget io st)).config = st.config := by
      rw [hfold.2, hinitc]
    have hsplit : runUpdates (L ++ [b]) (initializeTarget io st) =
        updateTargetPosition b.1 b.2 (runUpdates L (initializeTarget io st)) := by
      simp [runUpdates, List.foldl_append]
    rw [hsplit]
    have hb := update_in_box b.1 b.2 (runUpdates L (initializeTarget io st))
      (by rw [hrad, hcfg]; exact hW) (by rw [hrad, hcfg]; exact hH)
    rw [hrad, hcfg] at hb
    exact hb

/-- C10 witness: one 1-second tick on a freshly initialized target at
the center of a 1920×1080 monitor with radius 30. -/
theorem claim_C10_witness :
    sampleEngineState.targetRadius ≤
      (runUpdates [(trivialKinOracle, 1)]
        (initializeTarget trivialResetOracle sampleEngineState)).targetPosition.1 ∧
      (runUpdates [(trivialKinOracle, 1)]
        (initializeTarget trivialResetOracle sampleEngineState)).targetPosition.1 ≤
        sampleEngineState.config.monitorResolution.width - sampleEngineState.targetRadius ∧
      sampleEngineState.targetRadius ≤
        (runUpdates [(trivialKinOracle, 1)]
          (initializeTarget trivialResetOracle sampleEngineState)).targetPosition.2 ∧
      (runUpdates [(trivialKinOracle, 1)]
        (initializeTarget trivialResetOracle sampleEngineState)).targetPosition.2 ≤
        sampleEngineState.config.monitorResolution.height - sampleEngineState.targetRadius :=
  claim_C10 sampleEngineState trivialResetOracle [(trivialKinOracle, 1)]
    (by norm_num [sampleEngineState]) (by norm_num [sampleEngineState])
    (by simp) (by norm_num)

end CLST
